import Mathlib

/-!
Shallow embedding of `brave_search.py` (class `BraveSearch`): configuration,
request-parameter assembly, HTTP-transport oracle, response projection and
JSON serialization, together with theorems settling the specification claims.
-/

namespace BraveSearchSpec

/-- JSON values, modelling Python objects decoded from a JSON body
(the value of `response.json()`), and the values placed in dicts by the
code.  Python dicts are insertion-ordered, so objects are association
lists of key/value pairs. -/
inductive JValue : Type
  | null : JValue
  | bool : Bool → JValue
  | num : Int → JValue
  | str : String → JValue
  | arr : List JValue → JValue
  | obj : List (String × JValue) → JValue

/-- First-match association lookup.  Python dicts have unique keys; for
the lists we build, the first match is the only match. -/
def jLookup : List (String × JValue) → String → Option JValue
  | [], _ => none
  | (k, v) :: rest, key => if k = key then some v else jLookup rest key

/-- Python truthiness of a decoded JSON value: `None`, `False`, `0`, `""`,
`[]` and the empty dict are falsy, everything else truthy.  Used by the code
in `if result.get("extra_snippets"):` and `if summarizer:`. -/
def truthy : JValue → Bool
  | .null => false
  | .bool b => b
  | .num n => n != 0
  | .str s => !s.isEmpty
  | .arr xs => !xs.isEmpty
  | .obj fs => !fs.isEmpty

/-- The key list of an object value (empty for non-objects). -/
def objKeys : JValue → List String
  | .obj fs => fs.map Prod.fst
  | _ => []

/-- The field list of an object value (empty for non-objects). -/
def objFields : JValue → List (String × JValue)
  | .obj fs => fs
  | _ => []

/-- Python `d.get(key, default)`: on a dict, the stored value when the key
is present (even if the value is `None`), the default otherwise.  On a
non-dict value Python raises `AttributeError`, modelled as `.error`. -/
def dictGet (v : JValue) (key : String) (dflt : JValue) : Except String JValue :=
  match v with
  | .obj fs => .ok ((jLookup fs key).getD dflt)
  | _ => .error "AttributeError: object has no attribute get"

/-- Python `key in d` on a dict value (used for `"enrichments" in summarizer`).
Only reached in the code after `summarizer.get` has succeeded, so the
non-dict branch is unreachable there. -/
def hasKey (v : JValue) (key : String) : Bool :=
  match v with
  | .obj fs => (jLookup fs key).isSome
  | _ => false

/-- Python `d[key]` on a dict, used only under a `key in d` guard. -/
def dictIndex (v : JValue) (key : String) : JValue :=
  match v with
  | .obj fs => (jLookup fs key).getD .null
  | _ => .null

/-- Python `for result in x` requires an iterable list in this pipeline;
a non-list JSON value makes the loop (or the element projection) raise,
modelled as `.error`. -/
def asList : JValue → Except String (List JValue)
  | .arr xs => .ok xs
  | _ => .error "TypeError: object is not iterable"

/-- The configuration held by a `BraveSearch` instance after `__init__`:
`api_key` is the resolved value of `api_key or getenv("BRAVE_SEARCH_API_KEY")`
(absent when both are absent), the five locale/search options and the two
flags have the constructor defaults, the remaining fields are optional. -/
structure BraveSearch : Type where
  api_key : Option String
  country : String
  search_lang : String
  ui_lang : String
  safesearch : String
  text_decorations : Bool
  spellcheck : Bool
  num_results : Option Int
  freshness : Option String
  result_filter : Option String
  goggles_id : Option String
  units : Option String
  extra_snippets : Option Bool
  summary : Bool
  show_results : Bool

/-- A configuration with the constructor default for every field other
than the API key: `country="us"`, `search_lang="en"`, `ui_lang="en-US"`,
`safesearch="moderate"`, `text_decorations=True`, `spellcheck=True`,
`num_results=None`, `freshness=None`, `result_filter=None`,
`goggles_id=None`, `units=None`, `extra_snippets=None`, `summary=True`,
`show_results=False`. -/
def defaultConfig (api_key : Option String) : BraveSearch :=
  ⟨api_key, "us", "en", "en-US", "moderate", true, true,
   none, none, none, none, none, none, true, false⟩

/-- `self.api_key = api_key or getenv("BRAVE_SEARCH_API_KEY")`: the supplied
key when it is truthy (non-empty), otherwise whatever the environment holds. -/
def resolve_api_key (supplied env : Option String) : Option String :=
  match supplied with
  | some s => if s.isEmpty then env else some s
  | none => env

/-- `not self.api_key`: the key attribute is `None` or the empty string. -/
def api_key_missing (cfg : BraveSearch) : Bool :=
  match cfg.api_key with
  | none => true
  | some s => s.isEmpty

/-- `self.num_results or num_results`: Python `or` takes the call-level
argument whenever the configured count is `None` or the falsy integer `0`. -/
def count_param (config_count : Option Int) (call_count : Int) : Int :=
  match config_count with
  | some k => if k = 0 then call_count else k
  | none => call_count

/-- The `search_kwargs` dict as first written (before the clean-up
comprehension): each key paired with `some` value, or `none` when the
configured Python value is `None`. -/
def raw_kwargs (cfg : BraveSearch) (query : String) (num_results : Int) :
    List (String × Option JValue) :=
  [("q", some (.str query)),
   ("country", some (.str cfg.country)),
   ("search_lang", some (.str cfg.search_lang)),
   ("ui_lang", some (.str cfg.ui_lang)),
   ("safesearch", some (.str cfg.safesearch)),
   ("text_decorations", some (.bool cfg.text_decorations)),
   ("spellcheck", some (.bool cfg.spellcheck)),
   ("count", some (.num (count_param cfg.num_results num_results))),
   ("freshness", cfg.freshness.map .str),
   ("result_filter", cfg.result_filter.map .str),
   ("goggles_id", cfg.goggles_id.map .str),
   ("units", cfg.units.map .str),
   ("extra_snippets", cfg.extra_snippets.map .bool),
   ("summary", some (.bool cfg.summary))]

/-- `search_kwargs = {k: v for k, v in search_kwargs.items() if v is not None}`:
the request parameter set actually sent, with `None`-valued entries dropped. -/
def search_kwargs (cfg : BraveSearch) (query : String) (num_results : Int) :
    List (String × JValue) :=
  (raw_kwargs cfg query num_results).filterMap
    (fun p => p.2.map (fun v => (p.1, v)))

/-- Outcome of `self.session.get(...)` followed by `response.json()`:
either the transport raised (connection error etc.), or a response arrived
with an HTTP status code and a body whose JSON decoding either succeeded
or raised.  Universally quantifying over this oracle models every upstream
behaviour. -/
inductive Transport : Type
  | raise : String → Transport
  | response : Nat → Except String JValue → Transport

/-- `response.raise_for_status()`: raises `HTTPError` for 4xx and 5xx
status codes, returns normally otherwise. -/
def raise_for_status (status : Nat) : Except String Unit :=
  if 400 ≤ status ∧ status < 600 then
    .error ("HTTPError: " ++ toString status)
  else
    .ok ()

/-- Projection of one `web.results` entry (lines 104-111): a dict with
`url`, `title`, `description` from `result.get(...)` (so `null` when the
field is missing), plus `extra_snippets` exactly when that value is truthy. -/
def project_result (result : JValue) : Except String JValue := do
  let url ← dictGet result "url" .null
  let title ← dictGet result "title" .null
  let description ← dictGet result "description" .null
  let snippets ← dictGet result "extra_snippets" .null
  pure (.obj
    ([("url", url), ("title", title), ("description", description)] ++
     (if truthy snippets then [("extra_snippets", snippets)] else [])))

/-- The value `project_result` produces on an object entry, as a total
function of the entry fields. -/
def project_result_obj (fs : List (String × JValue)) : JValue :=
  .obj
    ([("url", (jLookup fs "url").getD .null),
      ("title", (jLookup fs "title").getD .null),
      ("description", (jLookup fs "description").getD .null)] ++
     (if truthy ((jLookup fs "extra_snippets").getD .null) then
        [("extra_snippets", (jLookup fs "extra_snippets").getD .null)]
      else []))

/-- The `for result in ...: brave_results_parsed.append(...)` loop:
projects each entry in order; the first exception aborts the whole call. -/
def parse_web_results : List JValue → Except String (List JValue)
  | [] => .ok []
  | r :: rs => do
      let d ← project_result r
      let ds ← parse_web_results rs
      pure (d :: ds)

/-- Projection of the summarizer object (lines 116-130): always the five
keys `type`, `status`, `title`, `summary`, `followups` (with `null` /
empty-list defaults), plus `enrichments` and `entities_infos` exactly when
those keys exist in the source object. -/
def project_summarizer (summarizer : JValue) : Except String JValue := do
  let ty ← dictGet summarizer "type" .null
  let status ← dictGet summarizer "status" .null
  let title ← dictGet summarizer "title" .null
  let summary ← dictGet summarizer "summary" (.arr [])
  let followups ← dictGet summarizer "followups" (.arr [])
  let base := [("type", ty), ("status", status), ("title", title),
               ("summary", summary), ("followups", followups)]
  let withEnrichments :=
    if hasKey summarizer "enrichments" then
      base ++ [("enrichments", dictIndex summarizer "enrichments")]
    else base
  let withEntities :=
    if hasKey summarizer "entities_infos" then
      withEnrichments ++ [("entities_infos", dictIndex summarizer "entities_infos")]
    else withEnrichments
  pure (.obj withEntities)

/-- The value `project_summarizer` produces on an object summarizer, as a
total function of its fields. -/
def project_summarizer_obj (gs : List (String × JValue)) : JValue :=
  let base := [("type", (jLookup gs "type").getD .null),
               ("status", (jLookup gs "status").getD .null),
               ("title", (jLookup gs "title").getD .null),
               ("summary", (jLookup gs "summary").getD (.arr [])),
               ("followups", (jLookup gs "followups").getD (.arr []))]
  let withEnrichments :=
    if (jLookup gs "enrichments").isSome then
      base ++ [("enrichments", (jLookup gs "enrichments").getD .null)]
    else base
  let withEntities :=
    if (jLookup gs "entities_infos").isSome then
      withEnrichments ++ [("entities_infos", (jLookup gs "entities_infos").getD .null)]
    else withEnrichments
  .obj withEntities

/-- Lines 100-132: build `brave_results_parsed` from the decoded response:
project the `web.results` list (missing keys default to `{}` / `[]`), then
append the wrapped summarizer when `brave_results.get("summarizer", {})`
is truthy. -/
def brave_results_parsed (brave_results : JValue) : Except String (List JValue) := do
  let web ← dictGet brave_results "web" (.obj [])
  let resultsVal ← dictGet web "results" (.arr [])
  let results ← asList resultsVal
  let parsed ← parse_web_results results
  let summarizer ← dictGet brave_results "summarizer" (.obj [])
  if truthy summarizer then do
    let s ← project_summarizer summarizer
    pure (parsed ++ [.obj [("summarizer", s)]])
  else
    pure parsed

/-- One hexadecimal digit. -/
def hexDigit (n : Nat) : Char :=
  if n < 10 then Char.ofNat (48 + n) else Char.ofNat (87 + n % 16)

/-- Four-digit lowercase hexadecimal, as in Python `\uXXXX` escapes. -/
def hex4 (n : Nat) : String :=
  String.mk [hexDigit (n / 4096 % 16), hexDigit (n / 256 % 16),
             hexDigit (n / 16 % 16), hexDigit (n % 16)]

/-- `json.dumps` escaping of one character with the default
`ensure_ascii=True`: the two-character escapes for quote, backslash and
control whitespace, `\uXXXX` for other control or non-ASCII characters
(surrogate pairs above the BMP), the character itself otherwise. -/
def escape_char (c : Char) : String :=
  if c = '"' then "\\\"" else
  if c = '\\' then "\\\\" else
  if c = '\n' then "\\n" else
  if c = '\t' then "\\t" else
  if c = '\r' then "\\r" else
  if c.toNat = 8 then "\\b" else
  if c.toNat = 12 then "\\f" else
  if c.toNat < 32 then "\\u" ++ hex4 c.toNat else
  if c.toNat < 127 then String.singleton c else
  if c.toNat < 65536 then "\\u" ++ hex4 c.toNat else
    "\\u" ++ hex4 (55296 + (c.toNat - 65536) / 1024) ++
    "\\u" ++ hex4 (56320 + (c.toNat - 65536) % 1024)

/-- A JSON string literal with `json.dumps` escaping. -/
def quoteJson (s : String) : String :=
  "\"" ++ String.join (s.toList.map escape_char) ++ "\""

/-- `indent * level` spaces, for `json.dumps(..., indent=4)`. -/
def indentOf (level : Nat) : String :=
  String.mk (List.replicate (4 * level) ' ')

mutual

/-- `json.dumps(v, indent=4)` at a nesting level: scalars inline, empty
containers as `[]` / `\x7b\x7d`, non-empty containers one item per line at
the next indent level. -/
def dumps_val : Nat → JValue → String
  | _, .null => "null"
  | _, .bool true => "true"
  | _, .bool false => "false"
  | _, .num n => toString n
  | _, .str s => quoteJson s
  | _, .arr [] => "[]"
  | level, .arr (x :: xs) =>
      "[\n" ++ dumps_items (level + 1) x xs ++ "\n" ++ indentOf level ++ "]"
  | _, .obj [] => "\x7b\x7d"
  | level, .obj (f :: fs) =>
      "\x7b\n" ++ dumps_fields (level + 1) f fs ++ "\n" ++ indentOf level ++ "\x7d"
termination_by _ v => sizeOf v

/-- The comma-and-newline separated items of a non-empty array. -/
def dumps_items : Nat → JValue → List JValue → String
  | level, x, [] => indentOf level ++ dumps_val level x
  | level, x, y :: xs =>
      indentOf level ++ dumps_val level x ++ ",\n" ++ dumps_items level y xs
termination_by _ x xs => sizeOf x + sizeOf xs

/-- The comma-and-newline separated `"key": value` fields of a non-empty
object. -/
def dumps_fields : Nat → String × JValue → List (String × JValue) → String
  | level, (k, v), [] => indentOf level ++ quoteJson k ++ ": " ++ dumps_val level v
  | level, (k, v), g :: fs =>
      indentOf level ++ quoteJson k ++ ": " ++ dumps_val level v ++ ",\n" ++
      dumps_fields level g fs
termination_by _ f fs => sizeOf f + sizeOf fs

end

/-- `json.dumps(brave_results_parsed, indent=4)`. -/
def json_dumps (v : JValue) : String :=
  dumps_val 0 v

/-- The body of the `try:` block of `search_brave` (lines 75-137):
request assembly (pure, kept for the data flow), the transport call,
`raise_for_status`, JSON decoding, response projection, serialization.
Any Python exception is an `.error` carrying the exception message. -/
def search_brave_body (cfg : BraveSearch) (query : String) (num_results : Int)
    (t : Transport) : Except String String := do
  let _kwargs := search_kwargs cfg query num_results
  match t with
  | .raise msg => .error msg
  | .response status body => do
      let _ ← raise_for_status status
      let brave_results ← body
      let parsed ← brave_results_parsed brave_results
      pure (json_dumps (.arr parsed))

/-- `search_brave(self, query, num_results=10)` (lines 62-140): the
missing-credential sentinel before any network activity, otherwise the
`try:` body with every exception converted to `"Error: <message>"`.
The Python default for `num_results` is `10`; the transport oracle stands
for `self.session.get` on the assembled parameters. -/
def search_brave (cfg : BraveSearch) (query : String) (num_results : Int)
    (t : Transport) : String :=
  if api_key_missing cfg then
    "Please set the BRAVE_SEARCH_API_KEY"
  else
    match search_brave_body cfg query num_results t with
    | .ok s => s
    | .error e => "Error: " ++ e

/-- `run(self, query, num_results=10)` (lines 142-151): pure delegation
to `search_brave`. -/
def run (cfg : BraveSearch) (query : String) (num_results : Int)
    (t : Transport) : String :=
  search_brave cfg query num_results t

end BraveSearchSpec

namespace BraveSearchSpec

/-- On an object entry the projection never raises and produces
`project_result_obj` of the entry fields. -/
theorem project_result_obj_eq (fs : List (String × JValue)) :
    project_result (JValue.obj fs) = Except.ok (project_result_obj fs) := rfl

/-- On an object summarizer the projection never raises and produces
`project_summarizer_obj` of its fields. -/
theorem project_summarizer_obj_eq (gs : List (String × JValue)) :
    project_summarizer (JValue.obj gs) = Except.ok (project_summarizer_obj gs) := rfl

/-- The web-results loop over a list of object entries succeeds and maps
each entry through the projection, preserving order. -/
theorem parse_web_results_objs (fss : List (List (String × JValue))) :
    parse_web_results (fss.map JValue.obj) = Except.ok (fss.map project_result_obj) := by
  induction fss with
  | nil => rfl
  | cons fs rest ih =>
      simp only [List.map_cons, parse_web_results]
      rw [project_result_obj_eq, ih]
      rfl

/-- A response whose only key is `web` (no summarizer) parses to exactly
the projected web results. -/
theorem brave_results_parsed_web_only (rs : List JValue) (l : List JValue)
    (hp : parse_web_results rs = Except.ok l) :
    brave_results_parsed (JValue.obj [("web", JValue.obj [("results", JValue.arr rs)])])
      = Except.ok l := by
  have hred : brave_results_parsed (JValue.obj [("web", JValue.obj [("results", JValue.arr rs)])])
      = parse_web_results rs >>= fun parsed => Except.ok parsed := rfl
  rw [hred, hp]
  rfl

/-- A response with a `web.results` list and a non-empty object summarizer
parses to the projected web results with the wrapped summarizer appended
as the final element. -/
theorem brave_results_parsed_with_summarizer (rs : List JValue)
    (g : String × JValue) (gs : List (String × JValue)) (l : List JValue)
    (hp : parse_web_results rs = Except.ok l) :
    brave_results_parsed (JValue.obj [("web", JValue.obj [("results", JValue.arr rs)]),
        ("summarizer", JValue.obj (g :: gs))])
      = Except.ok (l ++ [JValue.obj [("summarizer", project_summarizer_obj (g :: gs))]]) := by
  have hred : brave_results_parsed (JValue.obj [("web", JValue.obj [("results", JValue.arr rs)]),
        ("summarizer", JValue.obj (g :: gs))])
      = parse_web_results rs >>= fun parsed =>
          Except.ok (parsed ++ [JValue.obj [("summarizer", project_summarizer_obj (g :: gs))]]) := rfl
  rw [hred, hp]
  rfl

/-- A 200 response whose body decodes and whose projection succeeds makes
the try-block body return the serialized parsed list. -/
theorem search_brave_body_ok (cfg : BraveSearch) (query : String) (num_results : Int)
    (resp : JValue) (l : List JValue) (h : brave_results_parsed resp = Except.ok l) :
    search_brave_body cfg query num_results (Transport.response 200 (Except.ok resp))
      = Except.ok (json_dumps (JValue.arr l)) := by
  have hred : search_brave_body cfg query num_results (Transport.response 200 (Except.ok resp))
      = brave_results_parsed resp >>= fun parsed => Except.ok (json_dumps (JValue.arr parsed)) := rfl
  rw [hred, h]
  rfl

/-- With the API key present, a successful try-block body is returned verbatim. -/
theorem search_brave_of_body_ok (cfg : BraveSearch) (query : String) (num_results : Int)
    (t : Transport) (s : String) (hkey : api_key_missing cfg = false)
    (h : search_brave_body cfg query num_results t = Except.ok s) :
    search_brave cfg query num_results t = s := by
  simp [search_brave, hkey, h]

/-- Key list of a projected web entry: the three required keys, then
`extra_snippets` exactly when the source value is truthy. -/
theorem project_result_obj_keys (fs : List (String × JValue)) :
    objKeys (project_result_obj fs)
      = ["url", "title", "description"] ++
        (if truthy ((jLookup fs "extra_snippets").getD JValue.null) then
           ["extra_snippets"] else []) := by
  unfold project_result_obj objKeys
  cases h : truthy ((jLookup fs "extra_snippets").getD JValue.null) <;> simp [h]

/-- Key list of a projected summarizer: the five unconditional keys, then
`enrichments` and `entities_infos` exactly when those keys exist in the
source object. -/
theorem project_summarizer_obj_keys (gs : List (String × JValue)) :
    objKeys (project_summarizer_obj gs)
      = (["type", "status", "title", "summary", "followups"] ++
         (if hasKey (JValue.obj gs) "enrichments" then ["enrichments"] else [])) ++
        (if hasKey (JValue.obj gs) "entities_infos" then ["entities_infos"] else []) := by
  unfold project_summarizer_obj objKeys hasKey
  cases h1 : (jLookup gs "enrichments").isSome <;>
    cases h2 : (jLookup gs "entities_infos").isSome <;>
      simp [h1, h2]

end BraveSearchSpec

namespace BraveSearchSpec

/-- Claim C1: for every query and every configuration with an API key
present, if any exception is raised during request assembly, the HTTP
call, JSON parsing, or result projection, then `search_brave` returns the
plain-text string `"Error: <message>"` and never propagates the exception
to its caller. -/
theorem C1_exception_containment (cfg : BraveSearch) (query : String)
    (num_results : Int) (t : Transport) (e : String)
    (hkey : api_key_missing cfg = false)
    (herr : search_brave_body cfg query num_results t = Except.error e) :
    search_brave cfg query num_results t = "Error: " ++ e := by
  simp [search_brave, hkey, herr]

/-- Witness for C1 at a concrete configuration and a raising transport. -/
theorem C1_exception_containment_witness :
    search_brave (defaultConfig (some "key")) "q" 10 (Transport.raise "ConnectionError")
      = "Error: " ++ "ConnectionError" :=
  C1_exception_containment (defaultConfig (some "key")) "q" 10
    (Transport.raise "ConnectionError") "ConnectionError" rfl rfl

/-- Claim C2: whenever the API key is neither supplied at construction nor
readable from the environment, `search_brave` returns the exact
missing-credential sentinel, and its result does not depend on the
transport at all (no network call is observable). -/
theorem C2_missing_api_key (cfg : BraveSearch) (query : String)
    (num_results : Int) (t u : Transport)
    (hkey : cfg.api_key = resolve_api_key none none) :
    search_brave cfg query num_results t = "Please set the BRAVE_SEARCH_API_KEY" ∧
    search_brave cfg query num_results t = search_brave cfg query num_results u := by
  have h : api_key_missing cfg = true := by
    simp [api_key_missing, hkey, resolve_api_key]
  constructor <;> simp [search_brave, h]

/-- Witness for C2 at a concrete key-less configuration and two distinct
transports. -/
theorem C2_missing_api_key_witness :
    search_brave (defaultConfig (resolve_api_key none none)) "q" 10 (Transport.raise "boom")
      = "Please set the BRAVE_SEARCH_API_KEY" ∧
    search_brave (defaultConfig (resolve_api_key none none)) "q" 10 (Transport.raise "boom")
      = search_brave (defaultConfig (resolve_api_key none none)) "q" 10
          (Transport.response 200 (Except.ok JValue.null)) :=
  C2_missing_api_key (defaultConfig (resolve_api_key none none)) "q" 10
    (Transport.raise "boom") (Transport.response 200 (Except.ok JValue.null)) rfl

/-- Counterexample to C3 as stated: with the optional result count unset,
the constructed parameter set still contains the key `count` (holding the
call-level value), so not every unset optional configuration field has its
key omitted. -/
theorem C3_counterexample :
    (defaultConfig (some "key")).num_results = none ∧
    jLookup (search_kwargs (defaultConfig (some "key")) "q" 10) "count"
      = some (JValue.num 10) :=
  ⟨rfl, rfl⟩

/-- Claim C3 (amended): every unset optional configuration field among
`freshness`, `result_filter`, `goggles_id`, `units`, `extra_snippets` has
its key omitted entirely from the constructed parameter set; the `count`
key is the exception, always present with `num_results or <call arg>`. -/
theorem C3_unset_optionals_omitted (cfg : BraveSearch) (query : String)
    (num_results : Int) :
    (cfg.freshness = none →
      jLookup (search_kwargs cfg query num_results) "freshness" = none) ∧
    (cfg.result_filter = none →
      jLookup (search_kwargs cfg query num_results) "result_filter" = none) ∧
    (cfg.goggles_id = none →
      jLookup (search_kwargs cfg query num_results) "goggles_id" = none) ∧
    (cfg.units = none →
      jLookup (search_kwargs cfg query num_results) "units" = none) ∧
    (cfg.extra_snippets = none →
      jLookup (search_kwargs cfg query num_results) "extra_snippets" = none) ∧
    jLookup (search_kwargs cfg query num_results) "count"
      = some (JValue.num (count_param cfg.num_results num_results)) := by
  obtain ⟨ak, co, sl, ul, ss, td, sp, nr, fr, rfi, gg, un, es, sm, sh⟩ := cfg
  cases fr <;> cases rfi <;> cases gg <;> cases un <;> cases es <;>
    simp [search_kwargs, raw_kwargs, jLookup]

/-- Witness for C3 (amended) at a concrete all-unset configuration. -/
theorem C3_unset_optionals_omitted_witness :
    jLookup (search_kwargs (defaultConfig (some "key")) "q" 10) "freshness" = none ∧
    jLookup (search_kwargs (defaultConfig (some "key")) "q" 10) "result_filter" = none ∧
    jLookup (search_kwargs (defaultConfig (some "key")) "q" 10) "goggles_id" = none ∧
    jLookup (search_kwargs (defaultConfig (some "key")) "q" 10) "units" = none ∧
    jLookup (search_kwargs (defaultConfig (some "key")) "q" 10) "extra_snippets" = none :=
  ⟨(C3_unset_optionals_omitted (defaultConfig (some "key")) "q" 10).1 rfl,
   (C3_unset_optionals_omitted (defaultConfig (some "key")) "q" 10).2.1 rfl,
   (C3_unset_optionals_omitted (defaultConfig (some "key")) "q" 10).2.2.1 rfl,
   (C3_unset_optionals_omitted (defaultConfig (some "key")) "q" 10).2.2.2.1 rfl,
   (C3_unset_optionals_omitted (defaultConfig (some "key")) "q" 10).2.2.2.2.1 rfl⟩

end BraveSearchSpec

namespace BraveSearchSpec

/-- Counterexample to C4 as stated: a source entry that provides an
`extra_snippets` list — the empty list — yields an output object with no
`extra_snippets` key, because the code keys on Python truthiness
(`if result.get("extra_snippets"):`), not on presence of a list. -/
theorem C4_counterexample :
    jLookup [("url", JValue.str "https://x.com"), ("title", JValue.str "Paris"),
        ("description", JValue.str "Capital of France"),
        ("extra_snippets", JValue.arr [])] "extra_snippets"
      = some (JValue.arr []) ∧
    (∃ out, brave_results_parsed (JValue.obj [("web", JValue.obj [("results",
          JValue.arr [JValue.obj [("url", JValue.str "https://x.com"),
            ("title", JValue.str "Paris"),
            ("description", JValue.str "Capital of France"),
            ("extra_snippets", JValue.arr [])]])])])
        = Except.ok [out] ∧
      objKeys out = ["url", "title", "description"]) ∧
    "extra_snippets" ∉ (["url", "title", "description"] : List String) :=
  ⟨rfl, ⟨_, rfl, rfl⟩, by decide⟩

/-- Claim C4 (amended): an upstream response with N object entries under
`web.results` and no summarizer parses to exactly N objects in order, each
holding only `url`, `title`, `description` plus `extra_snippets` exactly
when the source value for it is truthy (e.g. a non-empty list); a response
with no `web.results` parses to the empty list; with the API key present,
`search_brave` returns the serialization of that list. -/
theorem C4_web_results_projection (cfg : BraveSearch) (query : String)
    (num_results : Int) (fss : List (List (String × JValue)))
    (hkey : api_key_missing cfg = false) :
    brave_results_parsed
        (JValue.obj [("web", JValue.obj [("results", JValue.arr (fss.map JValue.obj))])])
      = Except.ok (fss.map project_result_obj) ∧
    (fss.map project_result_obj).length = fss.length ∧
    (∀ fs ∈ fss,
      objKeys (project_result_obj fs)
        = ["url", "title", "description"] ++
          (if truthy ((jLookup fs "extra_snippets").getD JValue.null) then
             ["extra_snippets"] else [])) ∧
    brave_results_parsed (JValue.obj []) = Except.ok [] ∧
    search_brave cfg query num_results
        (Transport.response 200 (Except.ok
          (JValue.obj [("web", JValue.obj [("results", JValue.arr (fss.map JValue.obj))])])))
      = json_dumps (JValue.arr (fss.map project_result_obj)) := by
  have h1 := brave_results_parsed_web_only (fss.map JValue.obj)
    (fss.map project_result_obj) (parse_web_results_objs fss)
  refine ⟨h1, List.length_map _ _, fun fs _ => project_result_obj_keys fs, rfl, ?_⟩
  exact search_brave_of_body_ok cfg query num_results _ _ hkey
    (search_brave_body_ok cfg query num_results _ _ h1)

/-- The one-entry example from the spec: a single web result about the
capital of France. -/
def parisEntry : List (String × JValue) :=
  [("url", JValue.str "https://x.com"), ("title", JValue.str "Paris"),
   ("description", JValue.str "Capital of France")]

/-- The mocked upstream response holding only that entry. -/
def parisResp : JValue :=
  JValue.obj [("web", JValue.obj [("results", JValue.arr (List.map JValue.obj [parisEntry]))])]

/-- Witness for C4 (amended) at the spec example: one web result for the
query about the capital of France. -/
theorem C4_web_results_projection_witness :
    search_brave (defaultConfig (some "key")) "capital of France" 10
        (Transport.response 200 (Except.ok parisResp))
      = json_dumps (JValue.arr (List.map project_result_obj [parisEntry])) :=
  (C4_web_results_projection (defaultConfig (some "key")) "capital of France" 10
    [parisEntry] rfl).2.2.2.2

/-- Counterexample to C5 as stated: a non-empty source summarizer holding
only `type` still yields an output summarizer containing the key `status`
(as `null`), so fields absent from the source are also reflected. -/
theorem C5_counterexample :
    hasKey (JValue.obj [("type", JValue.str "complete")]) "status" = false ∧
    (∃ s, brave_results_parsed
          (JValue.obj [("summarizer", JValue.obj [("type", JValue.str "complete")])])
        = Except.ok [JValue.obj [("summarizer", s)]] ∧
      objKeys s = ["type", "status", "title", "summary", "followups"] ∧
      "status" ∈ objKeys s) :=
  ⟨rfl, ⟨_, rfl, rfl, by decide⟩⟩

/-- Claim C5 (amended): for every response with object web-result entries
and a non-empty object summarizer, the parsed list ends with
`{"summarizer": {...}}` whose object always carries `type`, `status`,
`title`, `summary`, `followups` (null / empty-list defaults when absent
upstream) and carries `enrichments` / `entities_infos` exactly when those
keys exist in the source summarizer; with the API key present,
`search_brave` returns the serialization of that list. -/
theorem C5_summarizer_projection (cfg : BraveSearch) (query : String)
    (num_results : Int) (fss : List (List (String × JValue)))
    (g : String × JValue) (gs : List (String × JValue))
    (hkey : api_key_missing cfg = false) :
    brave_results_parsed
        (JValue.obj [("web", JValue.obj [("results", JValue.arr (fss.map JValue.obj))]),
          ("summarizer", JValue.obj (g :: gs))])
      = Except.ok (fss.map project_result_obj ++
          [JValue.obj [("summarizer", project_summarizer_obj (g :: gs))]]) ∧
    objKeys (project_summarizer_obj (g :: gs))
      = (["type", "status", "title", "summary", "followups"] ++
         (if hasKey (JValue.obj (g :: gs)) "enrichments" then ["enrichments"] else [])) ++
        (if hasKey (JValue.obj (g :: gs)) "entities_infos" then ["entities_infos"] else []) ∧
    search_brave cfg query num_results
        (Transport.response 200 (Except.ok
          (JValue.obj [("web", JValue.obj [("results", JValue.arr (fss.map JValue.obj))]),
            ("summarizer", JValue.obj (g :: gs))])))
      = json_dumps (JValue.arr (fss.map project_result_obj ++
          [JValue.obj [("summarizer", project_summarizer_obj (g :: gs))]])) := by
  have h1 := brave_results_parsed_with_summarizer (fss.map JValue.obj) g gs
    (fss.map project_result_obj) (parse_web_results_objs fss)
  refine ⟨h1, project_summarizer_obj_keys (g :: gs), ?_⟩
  exact search_brave_of_body_ok cfg query num_results _ _ hkey
    (search_brave_body_ok cfg query num_results _ _ h1)

/-- A concrete response whose summarizer holds only a type field. -/
def summOnlyResp : JValue :=
  JValue.obj [("web", JValue.obj [("results",
      JValue.arr (List.map JValue.obj ([] : List (List (String × JValue)))))]),
    ("summarizer", JValue.obj [("type", JValue.str "complete")])]

/-- Witness for C5 (amended) at a concrete summarizer-only response. -/
theorem C5_summarizer_projection_witness :
    search_brave (defaultConfig (some "key")) "q" 10
        (Transport.response 200 (Except.ok summOnlyResp))
      = json_dumps (JValue.arr
          (List.map project_result_obj ([] : List (List (String × JValue))) ++
           [JValue.obj [("summarizer",
              project_summarizer_obj [("type", JValue.str "complete")])]])) :=
  (C5_summarizer_projection (defaultConfig (some "key")) "q" 10 []
    ("type", JValue.str "complete") [] rfl).2.2

end BraveSearchSpec

namespace BraveSearchSpec

/-- A configuration whose client-level result count is the falsy integer 0. -/
def cfg_zero_count : BraveSearch :=
  ⟨some "key", "us", "en", "en-US", "moderate", true, true,
   some 0, none, none, none, none, none, true, false⟩

/-- Counterexample to C6 as stated: with the client-level result count
configured as 0, the `count` parameter sent upstream is the call argument
7, not the configured 0, because `self.num_results or num_results` treats
0 as falsy. -/
theorem C6_counterexample :
    cfg_zero_count.num_results = some 0 ∧
    jLookup (search_kwargs cfg_zero_count "q" 7) "count" = some (JValue.num 7) ∧
    some (JValue.num 7) ≠ some (JValue.num 0) :=
  ⟨rfl, rfl, by simp⟩

/-- Claim C6 (amended): the `count` parameter equals the client-level
configured count when that count is configured and nonzero, and equals the
call's `num_results` argument when the client-level count is unset or
zero. -/
theorem C6_count_selection (cfg : BraveSearch) (query : String) (n : Int) :
    (∀ k, cfg.num_results = some k → k ≠ 0 →
      jLookup (search_kwargs cfg query n) "count" = some (JValue.num k)) ∧
    (cfg.num_results = none ∨ cfg.num_results = some 0 →
      jLookup (search_kwargs cfg query n) "count" = some (JValue.num n)) := by
  have base : jLookup (search_kwargs cfg query n) "count"
      = some (JValue.num (count_param cfg.num_results n)) := rfl
  constructor
  · intro k hk hne
    rw [base, hk]
    simp [count_param, hne]
  · rintro (h | h) <;> rw [base, h] <;> simp [count_param]

/-- Witness for C6 (amended) at a configured nonzero count. -/
theorem C6_count_selection_witness :
    jLookup (search_kwargs
        ⟨some "key", "us", "en", "en-US", "moderate", true, true,
         some 5, none, none, none, none, none, true, false⟩ "q" 10) "count"
      = some (JValue.num 5) :=
  (C6_count_selection
    ⟨some "key", "us", "en", "en-US", "moderate", true, true,
     some 5, none, none, none, none, none, true, false⟩ "q" 10).1 5 rfl (by decide)

/-- Claim C7: `run` returns exactly the same string as `search_brave` for
every configuration, query, result-count argument and upstream behaviour —
pure delegation. -/
theorem C7_run_delegates (cfg : BraveSearch) (query : String) (n : Int)
    (t : Transport) : run cfg query n t = search_brave cfg query n t := rfl

/-- Claim C8: the operation is deterministic — two calls with identical
configuration, query, result-count argument and identical upstream
behaviour produce identical output strings. -/
theorem C8_deterministic (cfg cfg2 : BraveSearch) (q q2 : String)
    (n n2 : Int) (t t2 : Transport)
    (hc : cfg = cfg2) (hq : q = q2) (hn : n = n2) (ht : t = t2) :
    search_brave cfg q n t = search_brave cfg2 q2 n2 t2 := by
  subst hc hq hn ht
  rfl

/-- Witness for C8 at concrete equal inputs. -/
theorem C8_deterministic_witness :
    search_brave (defaultConfig (some "key")) "q" 10 (Transport.raise "boom")
      = search_brave (defaultConfig (some "key")) "q" 10 (Transport.raise "boom") :=
  C8_deterministic (defaultConfig (some "key")) (defaultConfig (some "key"))
    "q" "q" 10 10 (Transport.raise "boom") (Transport.raise "boom") rfl rfl rfl rfl

/-- Claim C9: the constructed parameter set always contains the keys `q`
and `count`, whatever the configuration; the `count` value falls back to
the call-level argument exactly when the client-level count is unset or
zero. -/
theorem C9_q_and_count_present (cfg : BraveSearch) (query : String) (n : Int) :
    jLookup (search_kwargs cfg query n) "q" = some (JValue.str query) ∧
    jLookup (search_kwargs cfg query n) "count"
      = some (JValue.num (count_param cfg.num_results n)) ∧
    (cfg.num_results = none ∨ cfg.num_results = some 0 →
      count_param cfg.num_results n = n) := by
  refine ⟨rfl, rfl, ?_⟩
  rintro (h | h) <;> simp [count_param, h]

/-- Witness for C9 at a concrete configuration with the count unset. -/
theorem C9_q_and_count_present_witness :
    jLookup (search_kwargs (defaultConfig (some "key")) "hello" 10) "q"
      = some (JValue.str "hello") ∧
    count_param (defaultConfig (some "key")).num_results 10 = 10 :=
  ⟨(C9_q_and_count_present (defaultConfig (some "key")) "hello" 10).1,
   (C9_q_and_count_present (defaultConfig (some "key")) "hello" 10).2.2 (Or.inl rfl)⟩

/-- Claim C10: a web-result entry missing any of `url`, `title`,
`description` is still projected without error, and the output object maps
each missing key to `null` rather than omitting it. -/
theorem C10_missing_fields_null (fs : List (String × JValue)) :
    project_result (JValue.obj fs) = Except.ok (project_result_obj fs) ∧
    parse_web_results [JValue.obj fs] = Except.ok [project_result_obj fs] ∧
    (jLookup fs "url" = none →
      jLookup (objFields (project_result_obj fs)) "url" = some JValue.null) ∧
    (jLookup fs "title" = none →
      jLookup (objFields (project_result_obj fs)) "title" = some JValue.null) ∧
    (jLookup fs "description" = none →
      jLookup (objFields (project_result_obj fs)) "description" = some JValue.null) := by
  refine ⟨rfl, rfl, fun h => ?_, fun h => ?_, fun h => ?_⟩ <;>
    simp [project_result_obj, objFields, jLookup, h, List.cons_append]

/-- Witness for C10 at the entry with every field missing. -/
theorem C10_missing_fields_null_witness :
    jLookup (objFields (project_result_obj [])) "url" = some JValue.null ∧
    jLookup (objFields (project_result_obj [])) "title" = some JValue.null ∧
    jLookup (objFields (project_result_obj [])) "description" = some JValue.null :=
  ⟨(C10_missing_fields_null []).2.2.1 rfl,
   (C10_missing_fields_null []).2.2.2.1 rfl,
   (C10_missing_fields_null []).2.2.2.2 rfl⟩

end BraveSearchSpec
